import Mathlib

/-!
Shallow embedding of the quote pipeline of `orca-quote-machine`
(`src/app/services/slicer.py`, `src/app/services/pricing.py`,
`src/app/services/telegram.py`, `src/app/tasks.py`,
`src/app/models/quote.py`).

Python floats are modelled as exact rationals (the pricing code performs
no rounding of its own); Python ints as `ℤ`/`ℕ`; raising code as
`Except`; file contents as the data the code reads from them.
-/

namespace OrcaQuote

/-- Digit run to a natural number, as Python `int("<digits>")`. -/
def natOfDigits (ds : List Char) : ℕ :=
  ds.foldl (fun a c => a * 10 + (c.toNat - 48)) 0

/-- Substring test, Python `needle in hay`. -/
def hasSub : List Char → List Char → Bool
  | [], needle => needle.isEmpty
  | c :: rest, needle => needle.isPrefixOf (c :: rest) || hasSub rest needle

/-- Case-insensitive prefix test: `w` (given lowercase) against the text. -/
def lowPre (w : List Char) (l : List Char) : Bool :=
  w.isPrefixOf (l.map Char.toLower)

/-- Python `str.strip()`. -/
def pyStrip (l : List Char) : List Char :=
  ((l.dropWhile Char.isWhitespace).reverse.dropWhile Char.isWhitespace).reverse

/-- Python `line.split(":")[-1]`: the segment after the last colon
(the whole string when no colon occurs). -/
def afterLastColon (l : List Char) : List Char :=
  (l.reverse.takeWhile (fun c => c != ':')).reverse

/-- One pass of `re.sub(r"(estimated|printing|time|:)", "", s, flags=IGNORECASE)`
from `_parse_time_string` (slicer.py lines 268-270): scan left to right,
at each position removing the first alternative that matches, case-insensitively.
Fuel-indexed for structural recursion; `fuel = l.length` always suffices
since every step consumes at least one character. -/
def subNoiseAux : ℕ → List Char → List Char
  | 0, _ => []
  | _, [] => []
  | fuel + 1, c :: rest =>
    if lowPre "estimated".data (c :: rest) then subNoiseAux fuel ((c :: rest).drop 9)
    else if lowPre "printing".data (c :: rest) then subNoiseAux fuel ((c :: rest).drop 8)
    else if lowPre "time".data (c :: rest) then subNoiseAux fuel ((c :: rest).drop 4)
    else if c = ':' then subNoiseAux fuel rest
    else c :: subNoiseAux fuel rest

/-- Noise-token removal of `_parse_time_string`. -/
def subNoise (l : List Char) : List Char := subNoiseAux l.length l

/-- Python `re.search(r"(\d+)" + u, s)` for a literal unit character `u`:
leftmost maximal digit run immediately followed by `u`, returning the run's
value.  Maximal munch is equivalent to the backtracking engine here because
releasing a digit makes the next character a digit, which `u` is not. -/
def searchNumBefore (u : Char) : List Char → Option ℕ
  | [] => none
  | c :: rest =>
    if c.isDigit then
      match (c :: rest).dropWhile Char.isDigit with
      | a :: _ =>
        if a = u then some (natOfDigits ((c :: rest).takeWhile Char.isDigit))
        else searchNumBefore u rest
      | [] => searchNumBefore u rest
    else searchNumBefore u rest

/-- Python `re.search(r"(\d+)", s)`: value of the leftmost digit run. -/
def searchNat : List Char → Option ℕ
  | [] => none
  | c :: rest =>
    if c.isDigit then some (natOfDigits ((c :: rest).takeWhile Char.isDigit))
    else searchNat rest

/-- The `minutes` accumulation of `_parse_time_string` (slicer.py lines
273-288): sum the `<digits>h` and `<digits>m` components that matched; when
neither did, the first bare integer; 0 when nothing numeric is found. -/
def timeComponentsMinutes (cleaned : List Char) : ℕ :=
  match searchNumBefore 'h' cleaned, searchNumBefore 'm' cleaned with
  | some h, some m => h * 60 + m
  | some h, none => h * 60
  | none, some m => m
  | none, none =>
    match searchNat cleaned with
    | some n => n
    | none => 0

/-- Python `minutes or 60` on a non-negative int. -/
def pyOrSixty (n : ℕ) : ℕ := if n = 0 then 60 else n

/-- `OrcaSlicerService._parse_time_string` (slicer.py lines 263-290):
strip noise tokens, look for `<digits>h` and `<digits>m` components, sum
whichever are present; if neither matches, first bare integer; `minutes or 60`
at the end. -/
def parse_time_string (timeStr : String) : ℕ :=
  pyOrSixty (timeComponentsMinutes (pyStrip (subNoise timeStr.data)))

/-- Python `re.search(r"(\d+\.?\d*)\s*g", line)` followed by `float(group(1))`
(slicer.py lines 239-243): leftmost digit run, optional dot plus further
digits, optional whitespace, then a literal `g`; the captured number's exact
value.  Maximal munch is again equivalent to the backtracking engine: any
character a quantifier could release fails the next mandatory comparison. -/
def searchGramsNum : List Char → Option ℚ
  | [] => none
  | c :: rest =>
    if c.isDigit then
      let intRun := (c :: rest).takeWhile Char.isDigit
      let after1 := (c :: rest).dropWhile Char.isDigit
      let fracRun :=
        match after1 with
        | '.' :: t => t.takeWhile Char.isDigit
        | _ => []
      let after2 :=
        match after1 with
        | '.' :: t => t.dropWhile Char.isDigit
        | _ => after1
      match after2.dropWhile Char.isWhitespace with
      | 'g' :: _ =>
        some ((natOfDigits intRun : ℚ) + (natOfDigits fracRun : ℚ) / 10 ^ fracRun.length)
      | _ => searchGramsNum rest
    else searchGramsNum rest

/-- One line of the scan loop of `OrcaSlicerService._parse_gcode_metadata`
(slicer.py lines 219-243), updating the `(print_time_minutes, filament_grams)`
state. -/
def parse_gcode_line (st : ℕ × ℚ) (rawLine : String) : ℕ × ℚ :=
  let line := pyStrip rawLine.data
  let lower := line.map Char.toLower
  if hasSub lower "; estimated printing time".data then
    (parse_time_string (String.mk (pyStrip (afterLastColon line))), st.2)
  else if hasSub lower "; filament used".data || hasSub lower "; material volume".data then
    if hasSub line "g".data || hasSub line "gram".data then
      match searchGramsNum line with
      | some q => (st.1, q)
      | none => st
    else st
  else st

/-- `OrcaSlicerService._parse_gcode_metadata` (slicer.py lines 211-251).
The file is modelled as `some lines` when it opens and decodes cleanly and
`none` when reading raises; the exception handler (lines 245-249) sets the
`(60, 20.0)` fallback, while a clean read scans at most the first 100 lines
starting from the `(0, 0.0)` initial state. -/
def parse_gcode_metadata : Option (List String) → ℕ × ℚ
  | none => (60, 20)
  | some lines => (lines.take 100).foldl parse_gcode_line (0, 0)

/-- Python values as produced by `json.loads` (models/quote.py consumers):
integers, floats (exact rationals), strings, booleans, `None`, lists, dicts. -/
inductive PyVal where
  | pyInt (n : ℤ)
  | pyFloat (q : ℚ)
  | pyStr (s : String)
  | pyBool (b : Bool)
  | pyNone
  | pyList (xs : List PyVal)
  | pyDict (kvs : List (String × PyVal))
  deriving Repr

/-- Python truthiness (`if json_data:`). -/
def PyVal.truthy : PyVal → Bool
  | .pyInt n => decide (n ≠ 0)
  | .pyFloat q => decide (q ≠ 0)
  | .pyStr s => decide (s ≠ "")
  | .pyBool b => b
  | .pyNone => false
  | .pyList xs => !xs.isEmpty
  | .pyDict kvs => !kvs.isEmpty

/-- Rational truncation toward zero, Python `int(float)`. -/
def ratTrunc (q : ℚ) : ℤ := Int.tdiv q.num q.den

/-- Python `int(str)` on a stripped optional-sign digit string, `none` when
`int` would raise `ValueError`. -/
def strToInt (s : String) : Option ℤ :=
  let digits : List Char → Option ℕ := fun l =>
    if l.isEmpty then none
    else if l.all Char.isDigit then some (natOfDigits l) else none
  match pyStrip s.data with
  | '-' :: rest => (digits rest).map (fun n => -(n : ℤ))
  | '+' :: rest => (digits rest).map (fun n => (n : ℤ))
  | l => (digits l).map (fun n => (n : ℤ))

/-- Python `float(str)` on a stripped optional-sign decimal string
(`<digits>[.<digits>]`), `none` when `float` would raise `ValueError`. -/
def strToFloat (s : String) : Option ℚ :=
  let body : List Char → Option ℚ := fun l =>
    let intRun := l.takeWhile Char.isDigit
    match l.dropWhile Char.isDigit with
    | [] => if intRun.isEmpty then none else some (natOfDigits intRun : ℚ)
    | '.' :: t =>
      if t.all Char.isDigit ∧ ¬(intRun.isEmpty ∧ t.isEmpty) then
        some ((natOfDigits intRun : ℚ) + (natOfDigits t : ℚ) / 10 ^ t.length)
      else none
    | _ => none
  match pyStrip s.data with
  | '-' :: rest => (body rest).map (fun q => -q)
  | '+' :: rest => body rest
  | l => body l

/-- Pydantic v1 coercion to an `int` field: ints and bools pass through,
floats truncate toward zero, strings go through `int(str)`; anything else is
a validation failure. -/
def pyCoerceInt : PyVal → Option ℤ
  | .pyInt n => some n
  | .pyBool b => some (if b then 1 else 0)
  | .pyFloat q => some (ratTrunc q)
  | .pyStr s => strToInt s
  | _ => none

/-- Pydantic v1 coercion to a `float` field. -/
def pyCoerceFloat : PyVal → Option ℚ
  | .pyFloat q => some q
  | .pyInt n => some (n : ℚ)
  | .pyBool b => some (if b then 1 else 0)
  | .pyStr s => strToFloat s
  | _ => none

/-- `SlicingResult` (models/quote.py lines 54-60). -/
structure SlicingResult where
  print_time_minutes : ℤ
  filament_weight_grams : ℚ
  layer_count : Option ℤ := none
  deriving Repr, DecidableEq

/-- Errors that can escape `_parse_slice_results`. -/
inductive ResolveError where
  | slicerNoGcode
  | attributeError
  | validationError
  deriving Repr, DecidableEq

/-- Pydantic construction `SlicingResult(print_time_minutes=..,
filament_weight_grams=.., layer_count=None)`: coerce each field, then the
`ge=0` constraints; any failure raises `ValidationError`. -/
def SlicingResult.validate (ptm fg : PyVal) : Except ResolveError SlicingResult :=
  match pyCoerceInt ptm, pyCoerceFloat fg with
  | some n, some q =>
    if 0 ≤ n ∧ 0 ≤ q then .ok ⟨n, q, none⟩ else .error .validationError
  | _, _ => .error .validationError

/-- `OrcaSlicerService._parse_json_metadata` (slicer.py lines 253-261):
the JSON side-file is modelled by the outcome of reading and `json.loads`-ing
it — `some data` on success, `none` when either raises (the `except` clause
returns `None`). -/
def parse_json_metadata (parseOutcome : Option PyVal) : Option PyVal :=
  parseOutcome

/-- `OrcaSlicerService._parse_slice_results` (slicer.py lines 171-209).
`gcodeFiles` and `jsonFiles` model `output_dir.glob("*.gcode")` and
`output_dir.glob("*.json")`; each G-code file is its decoded line list (or
`none` for an unreadable file), each JSON file its parse outcome. -/
def parse_slice_results (gcodeFiles : List (Option (List String)))
    (jsonFiles : List (Option PyVal)) : Except ResolveError SlicingResult :=
  match gcodeFiles with
  | [] => .error .slicerNoGcode
  | g :: _ =>
    let meta := parse_gcode_metadata g
    let basePtm : PyVal := .pyInt (meta.1 : ℤ)
    let baseFg : PyVal := .pyFloat meta.2
    match jsonFiles with
    | [] => SlicingResult.validate basePtm baseFg
    | j :: _ =>
      match parse_json_metadata j with
      | none => SlicingResult.validate basePtm baseFg
      | some data =>
        if data.truthy then
          match data with
          | .pyDict kvs =>
            SlicingResult.validate ((kvs.lookup "print_time_minutes").getD basePtm)
              ((kvs.lookup "filament_grams").getD baseFg)
          | _ => .error .attributeError
        else SlicingResult.validate basePtm baseFg

/-- The classified error raised by `slice_model`. -/
inductive SliceModelError where
  | slicerError (cause : ResolveError)
  deriving Repr, DecidableEq

/-- The tail of `OrcaSlicerService.slice_model` (slicer.py lines 163-169)
after the subprocess exited successfully: any exception escaping
`_parse_slice_results` (including its own `SlicerError`) is re-raised as a
`SlicerError`. -/
def slice_model_finish (r : Except ResolveError SlicingResult) :
    Except SliceModelError SlicingResult :=
  match r with
  | .ok v => .ok v
  | .error e => .error (.slicerError e)

/-- `MaterialType` (models/quote.py lines 10-14). -/
inductive MaterialType where
  | PLA
  | PETG
  | ASA
  deriving Repr, DecidableEq

/-- The `.value` of the str-enum. -/
def MaterialType.value : MaterialType → String
  | .PLA => "PLA"
  | .PETG => "PETG"
  | .ASA => "ASA"

/-- The pricing-relevant slice of `Settings` (core/config.py lines 74-85),
an immutable snapshot; `material_prices` is the dict, modelled as an
association list with unique keys. -/
structure PricingSettings where
  material_prices : List (String × ℚ)
  default_price_per_kg : ℚ
  price_multiplier : ℚ
  minimum_price : ℚ
  additional_time_hours : ℚ
  deriving Repr

/-- The dictionary returned by `PricingService.calculate_quote`
(pricing.py lines 58-71). -/
structure CostBreakdown where
  material_type : String
  filament_kg : ℚ
  filament_grams : ℚ
  print_time_hours : ℚ
  print_time_minutes : ℤ
  price_per_kg : ℚ
  material_cost : ℚ
  time_cost : ℚ
  subtotal : ℚ
  total_cost : ℚ
  minimum_applied : Bool
  markup_percentage : ℚ
  deriving Repr, DecidableEq

/-- `PricingService.calculate_quote` (pricing.py lines 15-71), with floats
as exact rationals.  `material or MaterialType.PLA` defaults an absent
material; `max` is Python's two-argument `max`. -/
def calculate_quote (settings : PricingSettings) (slicing_result : SlicingResult)
    (material : Option MaterialType) : CostBreakdown :=
  let mat := material.getD .PLA
  let price_per_kg :=
    (settings.material_prices.lookup mat.value).getD settings.default_price_per_kg
  let filament_kg := slicing_result.filament_weight_grams / 1000
  let print_time_hours :=
    (slicing_result.print_time_minutes : ℚ) / 60 + settings.additional_time_hours
  let material_cost := filament_kg * price_per_kg
  let time_cost := print_time_hours * price_per_kg
  let subtotal := (material_cost + time_cost) * settings.price_multiplier
  let total_cost := max subtotal settings.minimum_price
  { material_type := mat.value
    filament_kg := filament_kg
    filament_grams := slicing_result.filament_weight_grams
    print_time_hours := print_time_hours
    print_time_minutes := slicing_result.print_time_minutes
    price_per_kg := price_per_kg
    material_cost := material_cost
    time_cost := time_cost
    subtotal := subtotal
    total_cost := total_cost
    minimum_applied := decide (total_cost = settings.minimum_price)
    markup_percentage := (settings.price_multiplier - 1) * 100 }

/-- Exceptions the notification sink (`bot.send_message`) can raise:
`TelegramError` or anything else — telegram.py catches both. -/
inductive SinkExn where
  | telegramError
  | otherError
  deriving Repr, DecidableEq

/-- `TelegramService.send_quote_notification` (telegram.py lines 20-51):
`configured` models `self.bot and self.settings.telegram_admin_chat_id`;
`sinkOutcome` the awaited `bot.send_message` call.  Every failure path
returns `false`; the method never raises. -/
def send_quote_notification (configured : Bool)
    (sinkOutcome : Except SinkExn Unit) : Bool :=
  if configured then
    match sinkOutcome with
    | .ok _ => true
    | .error _ => false
  else false

/-- The success record assembled by `run_processing_pipeline`
(tasks.py lines 177-187), minus the timestamp and identifier strings. -/
structure PipelineOutcome where
  success : Bool
  slicing_result : SlicingResult
  cost_breakdown : CostBreakdown
  notification_sent : Bool
  deriving Repr, DecidableEq

/-- `run_processing_pipeline` (tasks.py lines 139-187) after `slice_model`
returned a `SlicingResult` (the subprocess stage is external I/O): price the
result, dispatch the notification, and assemble the success record. -/
def run_processing_pipeline (settings : PricingSettings)
    (slicing_result : SlicingResult) (material : Option MaterialType)
    (telegramConfigured : Bool) (sinkOutcome : Except SinkExn Unit) :
    PipelineOutcome :=
  let cost_breakdown := calculate_quote settings slicing_result material
  let notification_sent := send_quote_notification telegramConfigured sinkOutcome
  { success := true
    slicing_result := slicing_result
    cost_breakdown := cost_breakdown
    notification_sent := notification_sent }

/-! Helper lemmas shared by the claim theorems. -/

/-- The itemized material cost is the filament mass (kg) times the resolved
rate, by definition of `calculate_quote`. -/
lemma material_cost_eq (settings : PricingSettings) (sr : SlicingResult)
    (m : Option MaterialType) :
    (calculate_quote settings sr m).material_cost =
      sr.filament_weight_grams / 1000 * (calculate_quote settings sr m).price_per_kg := rfl

/-- The itemized time cost is the billed hours times the resolved rate, by
definition of `calculate_quote`. -/
lemma time_cost_eq (settings : PricingSettings) (sr : SlicingResult)
    (m : Option MaterialType) :
    (calculate_quote settings sr m).time_cost =
      ((sr.print_time_minutes : ℚ) / 60 + settings.additional_time_hours) *
        (calculate_quote settings sr m).price_per_kg := rfl

/-! Claim theorems. -/

/-- C1: the pricing computation returns a breakdown satisfying, exactly,
`filament_kg = filament_weight_grams / 1000`,
`print_time_hours = print_time_minutes / 60 + additional_time_hours`,
`material_cost = filament_kg * price_per_kg`,
`time_cost = print_time_hours * price_per_kg`, and
`subtotal = (material_cost + time_cost) * markup_multiplier`; and on
minutes=120, grams=100, price 25/kg, additional 0.5h, markup 1.1, minimum 5
it returns filament_kg=0.1, print_time_hours=2.5, material_cost=2.5,
time_cost=62.5, subtotal=71.5, total_cost=71.5, minimum_applied=false. -/
theorem pricing_formula_exact (settings : PricingSettings) (sr : SlicingResult)
    (m : Option MaterialType) :
    ((calculate_quote settings sr m).filament_kg = sr.filament_weight_grams / 1000 ∧
      (calculate_quote settings sr m).print_time_hours =
        (sr.print_time_minutes : ℚ) / 60 + settings.additional_time_hours ∧
      (calculate_quote settings sr m).material_cost =
        (calculate_quote settings sr m).filament_kg *
          (calculate_quote settings sr m).price_per_kg ∧
      (calculate_quote settings sr m).time_cost =
        (calculate_quote settings sr m).print_time_hours *
          (calculate_quote settings sr m).price_per_kg ∧
      (calculate_quote settings sr m).subtotal =
        ((calculate_quote settings sr m).material_cost +
          (calculate_quote settings sr m).time_cost) * settings.price_multiplier) ∧
    calculate_quote ⟨[("PLA", 25), ("PETG", 30), ("ASA", 35)], 25, 11/10, 5, 1/2⟩
        ⟨120, 100, none⟩ (some .PLA) =
      { material_type := "PLA", filament_kg := 1/10, filament_grams := 100,
        print_time_hours := 5/2, print_time_minutes := 120, price_per_kg := 25,
        material_cost := 5/2, time_cost := 125/2, subtotal := 143/2,
        total_cost := 143/2, minimum_applied := false, markup_percentage := 10 } :=
  ⟨⟨rfl, rfl, rfl, rfl, rfl⟩,
    by norm_num [calculate_quote, List.lookup, MaterialType.value, max_def]⟩

/-- C2: the breakdown satisfies `minimum_price ≤ total_cost`,
`total_cost = max subtotal minimum_price`, and `minimum_applied` is true
exactly when `total_cost = minimum_price` (exact equality). -/
theorem minimum_floor (settings : PricingSettings) (sr : SlicingResult)
    (m : Option MaterialType) :
    settings.minimum_price ≤ (calculate_quote settings sr m).total_cost ∧
    (calculate_quote settings sr m).total_cost =
      max (calculate_quote settings sr m).subtotal settings.minimum_price ∧
    ((calculate_quote settings sr m).minimum_applied = true ↔
      (calculate_quote settings sr m).total_cost = settings.minimum_price) :=
  ⟨le_max_right _ _, rfl, by simp [calculate_quote]⟩

/-- C6: a slicing output directory with zero G-code files always resolves to
the classified no-machine-output error, whatever the JSON files are. -/
theorem no_gcode_fatal (jsonFiles : List (Option PyVal)) :
    parse_slice_results [] jsonFiles = .error .slicerNoGcode := rfl

/-- C8 counterexample: with resolved rates 25 < 30 but zero filament weight
and zero billed time, the itemized costs are equal, so the claimed strict
inequalities `material_cost(A) < material_cost(B)` and
`time_cost(A) < time_cost(B)` fail at this valid input. -/
theorem monotonic_pricing_cex :
    (calculate_quote ⟨[("PLA", 25), ("PETG", 30), ("ASA", 35)], 25, 11/10, 5, 0⟩
        ⟨0, 0, none⟩ (some .PLA)).price_per_kg <
      (calculate_quote ⟨[("PLA", 25), ("PETG", 30), ("ASA", 35)], 25, 11/10, 5, 0⟩
        ⟨0, 0, none⟩ (some .PETG)).price_per_kg ∧
    ¬((calculate_quote ⟨[("PLA", 25), ("PETG", 30), ("ASA", 35)], 25, 11/10, 5, 0⟩
        ⟨0, 0, none⟩ (some .PLA)).material_cost <
      (calculate_quote ⟨[("PLA", 25), ("PETG", 30), ("ASA", 35)], 25, 11/10, 5, 0⟩
        ⟨0, 0, none⟩ (some .PETG)).material_cost) ∧
    ¬((calculate_quote ⟨[("PLA", 25), ("PETG", 30), ("ASA", 35)], 25, 11/10, 5, 0⟩
        ⟨0, 0, none⟩ (some .PLA)).time_cost <
      (calculate_quote ⟨[("PLA", 25), ("PETG", 30), ("ASA", 35)], 25, 11/10, 5, 0⟩
        ⟨0, 0, none⟩ (some .PETG)).time_cost) := by
  norm_num [calculate_quote, List.lookup, MaterialType.value,
    show ("PETG" == "PLA") = false from rfl, show ("PETG" == "PETG") = true from rfl]

/-- C8 amended: for a fixed slicing result with non-negative quantities and a
non-negative additional-time buffer, a strictly cheaper resolved rate gives
costs that are never larger, and strictly smaller whenever the corresponding
quantity (filament weight, billed time) is strictly positive; at a zero
quantity the two costs coincide at 0, so strictness fails there. -/
theorem monotonic_pricing (settings : PricingSettings) (sr : SlicingResult)
    (mA mB : Option MaterialType)
    (hg : 0 ≤ sr.filament_weight_grams)
    (hm : 0 ≤ sr.print_time_minutes)
    (ha : 0 ≤ settings.additional_time_hours)
    (hp : (calculate_quote settings sr mA).price_per_kg <
      (calculate_quote settings sr mB).price_per_kg) :
    ((calculate_quote settings sr mA).material_cost ≤
      (calculate_quote settings sr mB).material_cost ∧
     (calculate_quote settings sr mA).time_cost ≤
      (calculate_quote settings sr mB).time_cost) ∧
    (0 < sr.filament_weight_grams →
      (calculate_quote settings sr mA).material_cost <
        (calculate_quote settings sr mB).material_cost) ∧
    (0 < (sr.print_time_minutes : ℚ) / 60 + settings.additional_time_hours →
      (calculate_quote settings sr mA).time_cost <
        (calculate_quote settings sr mB).time_cost) := by
  have hgq : (0 : ℚ) ≤ sr.filament_weight_grams / 1000 := by positivity
  have htq : (0 : ℚ) ≤ (sr.print_time_minutes : ℚ) / 60 + settings.additional_time_hours := by
    have : (0 : ℚ) ≤ (sr.print_time_minutes : ℚ) := by exact_mod_cast hm
    positivity
  refine ⟨⟨?_, ?_⟩, ?_, ?_⟩
  · rw [material_cost_eq, material_cost_eq]
    exact mul_le_mul_of_nonneg_left hp.le hgq
  · rw [time_cost_eq, time_cost_eq]
    exact mul_le_mul_of_nonneg_left hp.le htq
  · intro hpos
    rw [material_cost_eq, material_cost_eq]
    have : (0 : ℚ) < sr.filament_weight_grams / 1000 := by positivity
    exact mul_lt_mul_of_pos_left hp this
  · intro hpos
    rw [time_cost_eq, time_cost_eq]
    exact mul_lt_mul_of_pos_left hp hpos

/-- C8 amended, witness: the strict inequalities at a concrete positive job
with rates 25 < 30. -/
theorem monotonic_pricing_witness :
    (calculate_quote ⟨[("PLA", 25), ("PETG", 30), ("ASA", 35)], 25, 11/10, 5, 1/2⟩
        ⟨120, 100, none⟩ (some .PLA)).material_cost <
      (calculate_quote ⟨[("PLA", 25), ("PETG", 30), ("ASA", 35)], 25, 11/10, 5, 1/2⟩
        ⟨120, 100, none⟩ (some .PETG)).material_cost :=
  ((monotonic_pricing ⟨[("PLA", 25), ("PETG", 30), ("ASA", 35)], 25, 11/10, 5, 1/2⟩
      ⟨120, 100, none⟩ (some .PLA) (some .PETG) (by norm_num) (by norm_num)
      (by norm_num) (by decide)).2.1) (by norm_num)

/-- C9: when slicing and pricing succeeded, a failed notification dispatch
(the sink raising, or the service otherwise reporting `False`) still yields
the success outcome carrying the slicing result and cost breakdown, with
`notification_sent = false`. -/
theorem notification_failure_nonfatal (settings : PricingSettings)
    (sr : SlicingResult) (m : Option MaterialType) (configured : Bool)
    (sink : Except SinkExn Unit)
    (hfail : send_quote_notification configured sink = false) :
    run_processing_pipeline settings sr m configured sink =
      { success := true, slicing_result := sr,
        cost_breakdown := calculate_quote settings sr m,
        notification_sent := false } := by
  simp [run_processing_pipeline, hfail]

/-- C9 witness: a configured service whose sink raises `TelegramError`
degrades to the success outcome with `notification_sent = false`. -/
theorem notification_failure_nonfatal_witness :
    run_processing_pipeline ⟨[("PLA", 25)], 25, 11/10, 5, 1/2⟩ ⟨60, 20, none⟩
        none true (.error .telegramError) =
      { success := true, slicing_result := ⟨60, 20, none⟩,
        cost_breakdown := calculate_quote ⟨[("PLA", 25)], 25, 11/10, 5, 1/2⟩
          ⟨60, 20, none⟩ none,
        notification_sent := false } :=
  notification_failure_nonfatal ⟨[("PLA", 25)], 25, 11/10, 5, 1/2⟩ ⟨60, 20, none⟩
    none true (.error .telegramError) rfl


lemma subNoiseAux_mem : ∀ (fuel : ℕ) (l : List Char) (c : Char), c ∈ subNoiseAux fuel l → c ∈ l := by
  intro fuel
  induction fuel with
  | zero => intro l c h; simp [subNoiseAux] at h
  | succ n ih =>
    intro l c h
    cases l with
    | nil => simp [subNoiseAux] at h
    | cons a rest =>
      simp only [subNoiseAux] at h
      split at h
      · exact List.mem_of_mem_drop (ih _ _ h)
      · split at h
        · exact List.mem_of_mem_drop (ih _ _ h)
        · split at h
          · exact List.mem_of_mem_drop (ih _ _ h)
          · split at h
            · exact List.mem_cons_of_mem _ (ih _ _ h)
            · rcases List.mem_cons.mp h with h1 | h2
              · exact h1 ▸ List.mem_cons_self _ _
              · exact List.mem_cons_of_mem _ (ih _ _ h2)

lemma pyStrip_mem {c : Char} {l : List Char} (h : c ∈ pyStrip l) : c ∈ l := by
  unfold pyStrip at h
  rw [List.mem_reverse] at h
  have h2 := (List.dropWhile_sublist _).mem h
  rw [List.mem_reverse] at h2
  exact (List.dropWhile_sublist _).mem h2

lemma searchNumBefore_none (u : Char) :
    ∀ l : List Char, (∀ c ∈ l, c.isDigit = false) → searchNumBefore u l = none := by
  intro l
  induction l with
  | nil => intro _; rfl
  | cons a rest ih =>
    intro h
    have ha := h a (List.mem_cons_self a rest)
    simp only [searchNumBefore, ha]
    exact ih fun c hc => h c (List.mem_cons_of_mem _ hc)

lemma searchNat_none :
    ∀ l : List Char, (∀ c ∈ l, c.isDigit = false) → searchNat l = none := by
  intro l
  induction l with
  | nil => intro _; rfl
  | cons a rest ih =>
    intro h
    have ha := h a (List.mem_cons_self a rest)
    simp only [searchNat, ha]
    exact ih fun c hc => h c (List.mem_cons_of_mem _ hc)

lemma timeComponents_zero (l : List Char) (h : ∀ c ∈ l, c.isDigit = false) :
    timeComponentsMinutes l = 0 := by
  simp [timeComponentsMinutes, searchNumBefore_none _ _ h, searchNat_none _ h]

lemma one_le_pyOrSixty (n : ℕ) : 1 ≤ pyOrSixty n := by
  unfold pyOrSixty; split <;> omega

theorem time_parser_totality (s : String) :
    1 ≤ parse_time_string s ∧
    ((∀ c ∈ s.data, c.isDigit = false) → parse_time_string s = 60) := by
  constructor
  · exact one_le_pyOrSixty _
  · intro h
    have hc : ∀ c ∈ pyStrip (subNoise s.data), c.isDigit = false := fun c hcmem =>
      h c (subNoiseAux_mem _ _ _ (pyStrip_mem hcmem))
    simp only [parse_time_string]
    rw [timeComponents_zero _ hc]
    rfl

theorem time_parser_totality_witness :
    1 ≤ parse_time_string "no numbers here!" ∧ parse_time_string "no numbers here!" = 60 :=
  ⟨(time_parser_totality "no numbers here!").1,
   (time_parser_totality "no numbers here!").2 (by decide)⟩


lemma searchGramsNum_nonneg : ∀ (l : List Char) (q : ℚ), searchGramsNum l = some q → 0 ≤ q := by
  intro l
  induction l with
  | nil => intro q h; simp [searchGramsNum] at h
  | cons a rest ih =>
    intro q h
    simp only [searchGramsNum] at h
    split at h
    · split at h
      · rw [Option.some.injEq] at h
        subst h
        positivity
      · exact ih _ h
    · exact ih _ h

lemma parse_gcode_line_snd_nonneg (st : ℕ × ℚ) (line : String) (h : 0 ≤ st.2) :
    0 ≤ (parse_gcode_line st line).2 := by
  simp only [parse_gcode_line]
  split
  · exact h
  · split
    · split
      · split
        · exact searchGramsNum_nonneg _ _ (by assumption)
        · exact h
      · exact h
    · exact h

lemma parse_gcode_metadata_snd_nonneg (g : Option (List String)) :
    0 ≤ (parse_gcode_metadata g).2 := by
  cases g with
  | none => norm_num [parse_gcode_metadata]
  | some lines =>
    simp only [parse_gcode_metadata]
    have : ∀ (ls : List String) (st : ℕ × ℚ), 0 ≤ st.2 → 0 ≤ (ls.foldl parse_gcode_line st).2 := by
      intro ls
      induction ls with
      | nil => intro st h; exact h
      | cons a rest ih => intro st h; exact ih _ (parse_gcode_line_snd_nonneg st a h)
    exact this _ _ le_rfl

lemma validate_nat_ok (n : ℕ) (q : ℚ) (hq : 0 ≤ q) :
    SlicingResult.validate (.pyInt (n : ℤ)) (.pyFloat q) = .ok ⟨(n : ℤ), q, none⟩ := by
  simp [SlicingResult.validate, pyCoerceInt, pyCoerceFloat, hq, Int.natCast_nonneg]

theorem gcode_metadata_no_marker_zero :
    parse_gcode_metadata (some ["G28 ; home", "G1 X10 Y10", "M104 S200"]) = (0, 0) ∧
    parse_gcode_metadata (some []) = (0, 0) ∧
    parse_gcode_metadata none = (60, 20) :=
  ⟨rfl, rfl, rfl⟩

theorem json_override_precedence :
    (∀ (g : Option (List String)) (kvs : List (String × PyVal)),
      parse_slice_results [g] [some (.pyDict kvs)] =
        SlicingResult.validate
          ((kvs.lookup "print_time_minutes").getD (.pyInt ((parse_gcode_metadata g).1 : ℤ)))
          ((kvs.lookup "filament_grams").getD (.pyFloat (parse_gcode_metadata g).2))) ∧
    parse_slice_results [some ["; estimated printing time: 1h", "; filament used: 20.0g"]]
        [some (.pyDict [("filament_grams", .pyFloat (176/5))])] =
      .ok ⟨60, 176/5, none⟩ := by
  constructor
  · intro g kvs
    cases kvs with
    | nil => rfl
    | cons kv rest => rfl
  · simp +decide [parse_slice_results, parse_json_metadata, SlicingResult.validate, pyCoerceInt,
      pyCoerceFloat, PyVal.truthy, List.lookup, parse_gcode_metadata, parse_gcode_line,
      parse_time_string, timeComponentsMinutes, pyOrSixty, searchGramsNum, searchNumBefore,
      searchNat, natOfDigits, hasSub, lowPre, pyStrip, afterLastColon, subNoise, subNoiseAux,
      List.isPrefixOf]
    norm_num

theorem json_nondict_error_propagates :
    parse_slice_results [some ["; estimated printing time: 1h", "; filament used: 20.0g"]]
        [some (.pyList [.pyInt 1])] = .error .attributeError := by
  simp +decide [parse_slice_results, parse_json_metadata, PyVal.truthy, parse_gcode_metadata,
    parse_gcode_line, parse_time_string, timeComponentsMinutes, pyOrSixty, searchGramsNum,
    searchNumBefore, searchNat, natOfDigits, hasSub, lowPre, pyStrip, afterLastColon,
    subNoise, subNoiseAux, List.isPrefixOf]

theorem json_parse_failure_swallowed (g : Option (List String)) :
    parse_slice_results [g] [none] =
      .ok ⟨((parse_gcode_metadata g).1 : ℤ), (parse_gcode_metadata g).2, none⟩ ∧
    (∀ data : PyVal, data.truthy = true → (∀ kvs, data ≠ .pyDict kvs) →
      parse_slice_results [g] [some data] = .error .attributeError) := by
  constructor
  · exact validate_nat_ok _ _ (parse_gcode_metadata_snd_nonneg g)
  · intro data ht hne
    cases data <;>
      first
        | exact absurd rfl (hne _)
        | simp [parse_slice_results, parse_json_metadata, ht]

theorem json_parse_failure_swallowed_witness :
    parse_slice_results [some ["G28"]] [none] = .ok ⟨0, 0, none⟩ ∧
    parse_slice_results [some ["G28"]] [some (.pyList [.pyInt 1])] = .error .attributeError :=
  ⟨(json_parse_failure_swallowed (some ["G28"])).1,
   (json_parse_failure_swallowed (some ["G28"])).2 (.pyList [.pyInt 1]) rfl
     (fun kvs h => by cases h)⟩

theorem slicing_result_nonneg_invariant :
    (∀ (ptm fg : PyVal) (r : SlicingResult), SlicingResult.validate ptm fg = .ok r →
      0 ≤ r.print_time_minutes ∧ 0 ≤ r.filament_weight_grams) ∧
    (∀ g : Option (List String),
      slice_model_finish (parse_slice_results [g]
          [some (.pyDict [("filament_grams", .pyFloat (-5))])]) =
        .error (.slicerError .validationError)) := by
  constructor
  · intro ptm fg r h
    unfold SlicingResult.validate at h
    split at h
    · split at h
      · rw [Except.ok.injEq] at h
        subst h
        rename_i hcond
        exact hcond
      · simp at h
    · simp at h
  · intro g
    have hlook : ([("filament_grams", PyVal.pyFloat (-5))].lookup "print_time_minutes") = none := rfl
    have hlook2 : ([("filament_grams", PyVal.pyFloat (-5))].lookup "filament_grams") =
        some (.pyFloat (-5)) := rfl
    simp only [parse_slice_results, parse_json_metadata, PyVal.truthy, hlook, hlook2]
    norm_num [SlicingResult.validate, pyCoerceInt, pyCoerceFloat, slice_model_finish]

theorem slicing_result_nonneg_invariant_witness :
    (0 ≤ (⟨3, 2, none⟩ : SlicingResult).print_time_minutes ∧
      0 ≤ (⟨3, 2, none⟩ : SlicingResult).filament_weight_grams) ∧
    slice_model_finish (parse_slice_results [some ["G28"]]
        [some (.pyDict [("filament_grams", .pyFloat (-5))])]) =
      .error (.slicerError .validationError) :=
  ⟨slicing_result_nonneg_invariant.1 (.pyInt 3) (.pyFloat 2) ⟨3, 2, none⟩ (by
      norm_num [SlicingResult.validate, pyCoerceInt, pyCoerceFloat]),
   slicing_result_nonneg_invariant.2 (some ["G28"])⟩

end OrcaQuote
